import Mathlib

/-!
Verification of the knowledge-herald backend (src/index.js) against its
specification.  The Express handlers are shallowly embedded: MongoDB
collections become Lean lists, documents become structures, timestamps
become integers (milliseconds since the epoch), and each handler becomes a
pure function from the incoming state and request data to the outgoing
state and response.  updateOne updates the first matching document,
updateMany updates all of them, insertOne appends.
-/

namespace Herald

/-- Timestamps, in milliseconds since the epoch (what new Date() compares by). -/
abbrev Time := Int

/-- A document of the users collection.  subscriptionEnd is Option Time:
none models both a null field and an absent one, matching the JavaScript
truthiness tests the handlers apply to it. -/
structure User where
  email : String
  name : String
  photo : String
  role : String
  hasSubscription : Bool
  subscriptionEnd : Option Time
  created_at : Option Time
  updated_at : Option Time
  deriving Repr, DecidableEq

/-- Result of a middleware guard: either the request proceeds to the next
handler, or it was answered with an error status and message. -/
inductive GuardResult where
  | allowed
  | denied (status : Nat) (message : String)
  deriving Repr, DecidableEq

/-- findOne over a list of documents: the first match, if any. -/
def findFirst (p : α → Bool) : List α → Option α
  | [] => none
  | x :: xs => if p x then some x else findFirst p xs

/-- updateOne: apply f to the first document matching p, leave the rest. -/
def updateFirst (p : α → Bool) (f : α → α) : List α → List α
  | [] => []
  | x :: xs => if p x then f x :: xs else x :: updateFirst p f xs

/-- updateMany: apply f to every document matching p. -/
def updateAll (p : α → Bool) (f : α → α) (xs : List α) : List α :=
  xs.map fun x => if p x then f x else x

/-- The modifiedCount reported by updateOne: 1 when a first match exists and
applying the update actually changes it, otherwise 0. -/
def modifiedFirst [DecidableEq α] (p : α → Bool) (f : α → α) (xs : List α) : Nat :=
  match findFirst p xs with
  | none => 0
  | some x => if f x = x then 0 else 1

/-- usersCollection.findOne on an email equality query. -/
def findUser (users : List User) (email : String) : Option User :=
  findFirst (fun u => u.email == email) users

/-- The corrective write of verifySubscription:
set hasSubscription to false and unset subscriptionEnd. -/
def clearSubscription (u : User) : User :=
  { u with hasSubscription := false, subscriptionEnd := none }

/-- State and response produced by the verifySubscription middleware. -/
structure GuardOutcome where
  users : List User
  result : GuardResult
  deriving Repr, DecidableEq

/-- The verifySubscription middleware of src/index.js.  It looks up the
current user by the authenticated email; denies 403 when hasSubscription is
falsy (including when the user is missing); when a subscriptionEnd exists
and lies strictly in the past it clears the flag and the expiry with an
updateOne and denies 403 with an expired message; otherwise the request is
allowed through to the downstream handler. -/
def verifySubscription (users : List User) (email : String) (now : Time) :
    GuardOutcome :=
  match findUser users email with
  | none =>
      ⟨users, .denied 403 "This content requires an active subscription"⟩
  | some user =>
      if !user.hasSubscription then
        ⟨users, .denied 403 "This content requires an active subscription"⟩
      else
        match user.subscriptionEnd with
        | some e =>
            if e < now then
              ⟨updateFirst (fun u => u.email == email) clearSubscription users,
               .denied 403 "Your subscription has expired"⟩
            else
              ⟨users, .allowed⟩
        | none => ⟨users, .allowed⟩

/-- Response of GET /users/subscription/:email. -/
structure SubStatusResponse where
  status : Nat
  hasSubscription : Bool
  subscriptionEnd : Option Time
  deriving Repr, DecidableEq

/-- The corrective write of the subscription-status endpoint: it sets
subscriptionEnd to null rather than unsetting it; both are none here. -/
def expireForStatus (u : User) : User :=
  { u with hasSubscription := false, subscriptionEnd := none }

/-- GET /users/subscription/:email.  Rejects 403 when the path email is not
the authenticated email.  Otherwise the user is looked up; a missing user
reports no subscription.  hasActiveSubscription requires the flag, an
expiry, and the expiry strictly in the future; when it fails while the flag
is still set, the handler writes hasSubscription false and subscriptionEnd
null before answering. -/
def subscriptionStatus (users : List User) (paramEmail decodedEmail : String)
    (now : Time) : List User × SubStatusResponse :=
  if paramEmail != decodedEmail then
    (users, ⟨403, false, none⟩)
  else
    match findUser users paramEmail with
    | none => (users, ⟨200, false, none⟩)
    | some user =>
        let hasActive := user.hasSubscription &&
          (match user.subscriptionEnd with
           | some e => now < e
           | none => false)
        let users1 :=
          if !hasActive && user.hasSubscription then
            updateFirst (fun u => u.email == paramEmail) expireForStatus users
          else users
        (users1,
         ⟨200, hasActive, if hasActive then user.subscriptionEnd else none⟩)

/-- A publisher reference as stored inside an article document: either a
true ObjectId or its hexadecimal string form.  Articles inserted through
POST /articles store the string the client sent, which is why the listing
pipeline carries a toObjectId normalization step. -/
inductive PubRef where
  | oid (s : String)
  | str (s : String)
  deriving Repr, DecidableEq

/-- A tag object as stored in the tags array of an article. -/
structure Tag where
  value : String
  label : String
  deriving Repr, DecidableEq

/-- A document of the publishers collection. -/
structure Publisher where
  _id : String
  name : String
  logo : String
  createdAt : Time
  deriving Repr, DecidableEq

/-- A document of the articles collection. -/
structure Article where
  _id : String
  title : String
  image : String
  publisher : PubRef
  tags : List Tag
  description : String
  content : String
  authorEmail : String
  authorName : String
  authorImage : String
  createdAt : Time
  updatedAt : Time
  status : String
  views : Nat
  ratings : List ℚ
  averageRating : ℚ
  isPremium : Bool
  declined_reason : Option String
  deriving Repr, DecidableEq

/-- A document of the comments collection. -/
structure Comment where
  _id : String
  articleId : String
  userEmail : String
  userName : String
  userImage : String
  rating : ℚ
  content : String
  createdAt : Time
  deriving Repr, DecidableEq

/-- A document of the payments collection.  planId is Option String: the
value copied from the checkout-session metadata, which is itself the id
property read off the plan document. -/
structure Payment where
  email : String
  paymentId : String
  planId : Option String
  planName : String
  subscriptionTime : Int
  amount : Int
  createdAt : Time
  status : String
  deriving Repr, DecidableEq

/-- A document of the plans collection.  The id field models the plain id
property the payment handler reads (plan.id); Mongo documents identify
themselves through _id, so id is populated only when whoever seeded the
collection stored one. -/
structure Plan where
  _id : String
  id : Option String
  name : String
  price : Int
  duration : Int
  durationUnit : String
  description : String
  deriving Repr, DecidableEq

/-- The persistent state the handlers under study read and write. -/
structure DB where
  users : List User
  articles : List Article
  comments : List Comment
  payments : List Payment
  deriving Repr, DecidableEq

/-- The request body of POST /articles.  Required string fields model the
JavaScript falsiness test: an empty string stands for a missing or empty
value.  tags is Option: a missing tags field is falsy and fails validation,
while any array (even empty) passes. -/
structure ArticleBody where
  title : String
  image : String
  publisher : String
  tags : Option (List Tag)
  description : String
  content : String
  authorEmail : String
  authorName : String
  authorImage : String
  deriving Repr, DecidableEq

/-- The first required field of POST /articles that is falsy, scanned in
the order of the requiredFields array, if any. -/
def firstMissingField (b : ArticleBody) : Option String :=
  if b.title == "" then some "title"
  else if b.image == "" then some "image"
  else if b.publisher == "" then some "publisher"
  else if b.tags == none then some "tags"
  else if b.description == "" then some "description"
  else if b.content == "" then some "content"
  else if b.authorEmail == "" then some "authorEmail"
  else none

/-- The article document POST /articles inserts: the request body plus the
metadata the handler adds (createdAt, updatedAt, pending status, zero
views, empty ratings, zero average).  The publisher reference is stored as
the string the client sent. -/
def mkArticle (newId : String) (b : ArticleBody) (now : Time) : Article where
  _id := newId
  title := b.title
  image := b.image
  publisher := .str b.publisher
  tags := b.tags.getD []
  description := b.description
  content := b.content
  authorEmail := b.authorEmail
  authorName := b.authorName
  authorImage := b.authorImage
  createdAt := now
  updatedAt := now
  status := "pending"
  views := 0
  ratings := []
  averageRating := 0
  isPremium := false
  declined_reason := none

/-- Response of POST /articles. -/
inductive PostArticleResult where
  | notFound404
  | forbidden403
  | badRequest400 (field : String)
  | created201
  deriving Repr, DecidableEq

/-- The subscription test of the article-creation handler: the flag is set
and the expiry is either absent or strictly in the future. -/
def hasValidSubscription (u : User) (now : Time) : Bool :=
  u.hasSubscription &&
    (match u.subscriptionEnd with
     | none => true
     | some e => now < e)

/-- countDocuments on an authorEmail equality query. -/
def countByAuthor (articles : List Article) (email : String) : Nat :=
  (articles.filter fun a => a.authorEmail == email).length

/-- POST /articles.  Looks up the user (404 when missing); when the user
has no valid subscription and already authored at least one article the
request is denied 403 before validation; otherwise the required fields are
validated in order (400 at the first falsy one) and the article is
inserted with its metadata.  The handler reads the users collection but
never writes it, so the users list is passed through unchanged. -/
def postArticle (db : DB) (email : String) (body : ArticleBody) (now : Time)
    (newId : String) : DB × PostArticleResult :=
  match findUser db.users email with
  | none => (db, .notFound404)
  | some user =>
      if !hasValidSubscription user now &&
         decide (1 ≤ countByAuthor db.articles email) then
        (db, .forbidden403)
      else
        match firstMissingField body with
        | some f => (db, .badRequest400 f)
        | none =>
            ({ db with articles := db.articles ++ [mkArticle newId body now] },
             .created201)

/-- The request body of POST /users: whatever document the client submits.
Beyond the identity fields, the client may try to smuggle in a role, a
subscription flag or an expiry; the handler spreads the body first and then
overwrites those fields. -/
structure UserBody where
  email : String
  name : String
  photo : String
  role : Option String
  hasSubscription : Option Bool
  subscriptionEnd : Option Time
  deriving Repr, DecidableEq

/-- The user document POST /users inserts: the spread body followed by the
fields the handler sets, which therefore win regardless of what the body
supplied. -/
def sanitizedUser (b : UserBody) (now : Time) : User where
  email := b.email
  name := b.name
  photo := b.photo
  role := "user"
  hasSubscription := false
  subscriptionEnd := none
  created_at := some now
  updated_at := none

/-- POST /users.  The unique index on email makes a duplicate insert fail
with a soft response (code 11000); otherwise the sanitized document is
appended. -/
def postUser (users : List User) (b : UserBody) (now : Time) :
    List User × Bool :=
  if users.any (fun u => u.email == b.email) then
    (users, false)
  else
    (users ++ [sanitizedUser b now], true)

/-- The user update of PATCH /users/profile. -/
def setNamePhoto (name photo : String) (now : Time) (u : User) : User :=
  { u with name := name, photo := photo, updated_at := some now }

/-- Outcome of PATCH /users/profile: the final state, the HTTP status, and
whether the transactional session was ended (the finally block). -/
structure ProfileOutcome where
  db : DB
  status : Nat
  sessionEnded : Bool
  deriving Repr, DecidableEq

/-- PATCH /users/profile.  The three writes run inside
session.withTransaction: the user updateOne (throwing when its
modifiedCount is 0), the updateMany over the articles authored by the user,
and the updateMany over the comments written by the user.  A throw anywhere
aborts the transaction, leaving the whole state as it was; the catch block
answers 500; the finally block ends the session on every path.  The flags
articlesFail and commentsFail inject a database failure into the
corresponding updateMany, modelling the fault the spec asks to force. -/
def updateProfile (db : DB) (email name photo : String) (now : Time)
    (articlesFail commentsFail : Bool) : ProfileOutcome :=
  let txn : Except String DB :=
    if modifiedFirst (fun u => u.email == email) (setNamePhoto name photo now)
        db.users = 0 then
      .error "Failed to update user profile"
    else
      let db1 := { db with
        users := updateFirst (fun u => u.email == email)
          (setNamePhoto name photo now) db.users }
      if articlesFail then .error "articles update failed"
      else
        let db2 := { db1 with
          articles := updateAll (fun a => a.authorEmail == email)
            (fun a => { a with authorName := name, authorImage := photo })
            db1.articles }
        if commentsFail then .error "comments update failed"
        else
          .ok { db2 with
            comments := updateAll (fun c => c.userEmail == email)
              (fun c => { c with userName := name, userImage := photo })
              db2.comments }
  match txn with
  | .ok db2 => ⟨db2, 200, true⟩
  | .error _ => ⟨db, 500, true⟩

/-- The request body of PATCH /articles/:id.  The handler passes the body
verbatim into an updateOne set stage, so every field a client may send is
modelled; none means the field is absent from the body. -/
structure UpdateBody where
  title : Option String
  image : Option String
  publisher : Option String
  tags : Option (List Tag)
  description : Option String
  content : Option String
  authorEmail : Option String
  status : Option String
  isPremium : Option Bool
  deriving Repr, DecidableEq

/-- The set stage applied by PATCH /articles/:id: each field present in the
body overwrites the stored one. -/
def applyUpdates (b : UpdateBody) (a : Article) : Article :=
  { a with
    title := b.title.getD a.title
    image := b.image.getD a.image
    publisher := match b.publisher with
                 | some p => .str p
                 | none => a.publisher
    tags := b.tags.getD a.tags
    description := b.description.getD a.description
    content := b.content.getD a.content
    authorEmail := b.authorEmail.getD a.authorEmail
    status := b.status.getD a.status
    isPremium := b.isPremium.getD a.isPremium }

/-- Response of the article mutation endpoints. -/
inductive PatchResult where
  | notFound404
  | forbidden403
  | badRequest400
  | ok200
  deriving Repr, DecidableEq

/-- PATCH /articles/:id (owner edit).  Finds the article (404 when
missing), rejects 403 unless the authenticated email equals the stored
authorEmail, then applies the request body as a set stage; a modifiedCount
of 0 answers 400. -/
def patchArticle (articles : List Article) (id : String)
    (decodedEmail : String) (b : UpdateBody) : List Article × PatchResult :=
  match findFirst (fun a => a._id == id) articles with
  | none => (articles, .notFound404)
  | some a =>
      if a.authorEmail != decodedEmail then
        (articles, .forbidden403)
      else if modifiedFirst (fun x => x._id == id) (applyUpdates b)
          articles = 0 then
        (articles, .badRequest400)
      else
        (updateFirst (fun x => x._id == id) (applyUpdates b) articles, .ok200)

/-- The set stage of PATCH /admin/articles/:id: status, updatedAt, and the
declined reason when one was supplied. -/
def adminSetStatus (status : String) (declined : Option String) (now : Time)
    (a : Article) : Article :=
  { a with
    status := status
    updatedAt := now
    declined_reason := match declined with
                       | some d => some d
                       | none => a.declined_reason }

/-- PATCH /admin/articles/:id (admin status edit). -/
def adminPatchArticle (articles : List Article) (id : String)
    (status : String) (declined : Option String) (now : Time) :
    List Article × PatchResult :=
  if modifiedFirst (fun a => a._id == id) (adminSetStatus status declined now)
      articles = 0 then
    (articles, .notFound404)
  else
    (updateFirst (fun a => a._id == id) (adminSetStatus status declined now)
      articles, .ok200)

/-- PATCH /articles/:id/premium (admin premium edit). -/
def premiumPatchArticle (articles : List Article) (id : String) (now : Time) :
    List Article × PatchResult :=
  let f : Article → Article := fun a => { a with isPremium := true, updatedAt := now }
  if modifiedFirst (fun a => a._id == id) f articles = 0 then
    (articles, .notFound404)
  else
    (updateFirst (fun a => a._id == id) f articles, .ok200)

/-- The duration-to-minutes conversion of POST /create-payment-intent: a
unit of minute, days or months scales the duration; any other unit yields
zero minutes. -/
def durationInMinutes (plan : Plan) : Int :=
  plan.duration *
    (if plan.durationUnit == "minute" then 1
     else if plan.durationUnit == "days" then 24 * 60
     else if plan.durationUnit == "months" then 30 * 24 * 60
     else 0)

/-- The opaque metadata POST /create-payment-intent stores in the checkout
session.  The source serializes duration with toString and the completion
handler re-parses it with parseInt; the round trip is the identity on
integers, so duration is carried as an Int. -/
structure SessionMetadata where
  planId : Option String
  duration : Int
  planName : String
  deriving Repr, DecidableEq

/-- The metadata of the session created for a plan: the id property of the
plan document, the computed minutes, and the plan name. -/
def createSessionMetadata (plan : Plan) : SessionMetadata :=
  ⟨plan.id, durationInMinutes plan, plan.name⟩

/-- A checkout session as the provider reports it back on retrieval. -/
structure CheckoutSession where
  id : String
  payment_status : String
  customer_email : String
  payment_intent : String
  amount_total : Int
  metadata : SessionMetadata
  deriving Repr, DecidableEq

/-- Response of GET /payment/success. -/
inductive PaymentResult where
  | ok200
  | error500
  deriving Repr, DecidableEq

/-- The subscription write of the payment-success handler: set the flag and
overwrite subscriptionEnd with now plus the metadata duration in minutes. -/
def grantSubscription (duration : Int) (now : Time) (u : User) : User :=
  { u with
    hasSubscription := true
    subscriptionEnd := some (now + duration * 60 * 1000) }

/-- GET /payment/success.  Retrieves the session; when its payment state is
paid it inserts one Payment record built from the session fields and
updates the user subscription; any other state throws, the catch answers
500, and nothing is written. -/
def paymentSuccess (db : DB) (s : CheckoutSession) (now : Time) :
    DB × PaymentResult :=
  if s.payment_status == "paid" then
    let payment : Payment :=
      { email := s.customer_email
        paymentId := s.payment_intent
        planId := s.metadata.planId
        planName := s.metadata.planName
        subscriptionTime := s.metadata.duration
        amount := s.amount_total
        createdAt := now
        status := "success" }
    ({ db with
        payments := db.payments ++ [payment]
        users := updateFirst (fun u => u.email == s.customer_email)
          (grantSubscription s.metadata.duration now) db.users },
     .ok200)
  else
    (db, .error500)

/-- The request body of POST /articles/:id/comments: the comment document
the client submits, spread into the insert. -/
structure CommentBody where
  articleId : String
  userEmail : String
  userName : String
  userImage : String
  rating : ℚ
  content : String
  deriving Repr, DecidableEq

/-- The comment document the handler inserts: the body plus createdAt. -/
def mkComment (newId : String) (b : CommentBody) (now : Time) : Comment where
  _id := newId
  articleId := b.articleId
  userEmail := b.userEmail
  userName := b.userName
  userImage := b.userImage
  rating := b.rating
  content := b.content
  createdAt := now

/-- POST /articles/:id/comments.  Inserts the comment, re-reads every
comment whose articleId equals the path parameter, sums their ratings,
divides by their number, and writes the quotient into the parent article as
averageRating.  (When no comment matches, the source divides zero by zero,
producing NaN; the rational model yields 0 there, a state the verified
claims never reach.) -/
def addComment (db : DB) (paramId : String) (b : CommentBody) (now : Time)
    (newId : String) : DB :=
  let comments1 := db.comments ++ [mkComment newId b now]
  let matching := comments1.filter fun c => c.articleId == paramId
  let totalRating : ℚ := (matching.map Comment.rating).sum
  let average := totalRating / (matching.length : ℚ)
  { db with
    comments := comments1
    articles := updateFirst (fun a => a._id == paramId)
      (fun a => { a with averageRating := average }) db.articles }

/-- The query string of GET /articles after Express parsing.  page and
limit are the parseInt results (none when absent or not a number); search
and publisher are none when absent; tags is the comma-split list ([] when
absent); statuses is the status parameter normalized to a list. -/
structure ArticlesQuery where
  page : Option Nat
  limit : Option Nat
  search : Option String
  publisher : Option String
  tags : List String
  statuses : List String
  deriving Repr, DecidableEq

/-- parseInt(page) || 1: absent, non-numeric, and 0 all fall back to 1. -/
def pageOf (q : ArticlesQuery) : Nat :=
  match q.page with
  | none => 1
  | some 0 => 1
  | some n => n

/-- parseInt(limit) || 10: absent, non-numeric, and 0 all fall back to 10. -/
def limitOf (q : ArticlesQuery) : Nat :=
  match q.limit with
  | none => 10
  | some 0 => 10
  | some n => n

/-- Does the pattern occur at the head of the text? -/
def prefixMatch : List Char → List Char → Bool
  | [], _ => true
  | _ :: _, [] => false
  | c :: cs, d :: ds => c == d && prefixMatch cs ds

/-- Does the pattern occur anywhere in the text? -/
def infixMatch (needle : List Char) : List Char → Bool
  | [] => needle.isEmpty
  | d :: ds => prefixMatch needle (d :: ds) || infixMatch needle ds

/-- Case-insensitive containment, the meaning of the regex stage the
handler builds from the search string with options i (for search strings
without regex metacharacters, which this model covers). -/
def containsCI (hay needle : String) : Bool :=
  infixMatch (needle.toList.map Char.toLower) (hay.toList.map Char.toLower)

/-- The match stage the handler assembles: status in the status list (when
one was given), the search regex over title or content, publisher
equality against the ObjectId built from the query, and tags elemMatch
with value among the requested tags. -/
def matchesQuery (q : ArticlesQuery) (a : Article) : Bool :=
  (q.statuses.isEmpty || q.statuses.contains a.status) &&
  (match q.search with
   | none => true
   | some s =>
       s == "" || containsCI a.title s || containsCI a.content s) &&
  (match q.publisher with
   | none => true
   | some p => p == "" || a.publisher == PubRef.oid p) &&
  (q.tags.isEmpty || a.tags.any fun t => q.tags.contains t.value)

/-- The addFields stage of the pipeline: a publisher reference stored as a
string is converted to the ObjectId it denotes; one already an ObjectId is
left alone.  countDocuments never sees this conversion. -/
def normalizePublisher (a : Article) : Article :=
  match a.publisher with
  | .str s => { a with publisher := .oid s }
  | .oid _ => a

/-- The lookup stage joined with the unwind stage: each article is paired
with every publisher whose _id equals its (normalized) publisher
reference; an article whose reference matches no publisher is dropped by
the unwind. -/
def lookupUnwind (pubs : List Publisher) : List Article →
    List (Article × Publisher)
  | [] => []
  | a :: rest =>
      (pubs.filter fun p => PubRef.oid p._id == a.publisher).map
        (fun p => (a, p)) ++ lookupUnwind pubs rest

/-- Insert into a list sorted by descending key, after any equal keys. -/
def insertDescBy (key : α → Int) (x : α) : List α → List α
  | [] => [x]
  | y :: ys =>
      if key y < key x then x :: y :: ys else y :: insertDescBy key x ys

/-- Stable sort by descending key, the meaning of the sort stage on
createdAt descending. -/
def sortDescBy (key : α → Int) : List α → List α
  | [] => []
  | x :: xs => insertDescBy key x (sortDescBy key xs)

/-- Response of GET /articles. -/
structure ArticlesResponse where
  data : List (Article × Publisher)
  total : Nat
  page : Nat
  limit : Nat
  totalPages : Nat
  deriving Repr, DecidableEq

/-- GET /articles.  The data side runs the aggregation pipeline: addFields
normalization, match, lookup with unwind, sort by createdAt descending,
skip (page-1)*limit, limit.  The total side runs countDocuments with the
same match stage but on the raw documents, without the normalization and
without the join.  totalPages is the ceiling of total over limit. -/
def getArticles (articles : List Article) (pubs : List Publisher)
    (q : ArticlesQuery) : ArticlesResponse :=
  let page := pageOf q
  let limit := limitOf q
  let skip := (page - 1) * limit
  let matched := (articles.map normalizePublisher).filter (matchesQuery q)
  let rows := sortDescBy (fun r => r.1.createdAt) (lookupUnwind pubs matched)
  let total := (articles.filter (matchesQuery q)).length
  ⟨(rows.drop skip).take limit, total, page, limit,
   (total + limit - 1) / limit⟩

/-- A grouping key as it reaches the JavaScript Map of the user-stats
handler: either the ObjectId the group stage produced or the calendar-day
string the lookup uses. -/
inductive GroupKey where
  | oid (s : String)
  | dateStr (s : String)
  deriving Repr, DecidableEq

/-- The views aggregation of GET /user-stats: match the author, then group
with _id set to one ObjectId value, generated once when the pipeline
object was built, so every matched document lands in a single bucket keyed
by that ObjectId (and no bucket exists when nothing matched). -/
def viewsAggregation (articles : List Article) (email : String)
    (freshId : String) : List (GroupKey × Nat) :=
  let matched := articles.filter fun a => a.authorEmail == email
  if matched.isEmpty then []
  else [(GroupKey.oid freshId, (matched.map Article.views).sum)]

/-- Map.get over the association list built from the aggregation rows. -/
def mapGet (m : List (GroupKey × Nat)) (k : GroupKey) : Option Nat :=
  (findFirst (fun p => p.1 == k) m).map Prod.snd

/-- The filledViewsData array of GET /user-stats: for each of the last 30
day strings, the Map is probed with the day string and misses fall back to
0 views. -/
def filledViewsData (articles : List Article) (email : String)
    (freshId : String) (days : List String) : List (String × Nat) :=
  let viewsMap := viewsAggregation articles email freshId
  days.map fun d => (d, (mapGet viewsMap (GroupKey.dateStr d)).getD 0)

/-! Sample fixtures used to instantiate the theorems below on concrete
states. -/

/-- A sample approved article authored by alice, with its publisher stored
as an ObjectId reference. -/
def sampleArticle : Article where
  _id := "a8"
  title := "Herald Tips"
  image := "img"
  publisher := .oid "p1"
  tags := [⟨"tech", "Tech"⟩]
  description := "d"
  content := "c"
  authorEmail := "alice@x"
  authorName := "Alice"
  authorImage := "ai"
  createdAt := 5
  updatedAt := 5
  status := "approved"
  views := 7
  ratings := []
  averageRating := 0
  isPremium := false
  declined_reason := none

/-- Two existing comments on sampleArticle carrying ratings 3 and 5. -/
def sampleComments : List Comment :=
  [⟨"c1", "a8", "u1@x", "U1", "i", 3, "good", 1⟩,
   ⟨"c2", "a8", "u2@x", "U2", "i", 5, "great", 2⟩]

/-- A new comment on sampleArticle carrying rating 4. -/
def sampleCommentBody : CommentBody := ⟨"a8", "u3@x", "U3", "i", 4, "nice"⟩

/-- The state in which sampleArticle has comments rated 3 and 5. -/
def sampleDB : DB := ⟨[], [sampleArticle], sampleComments, []⟩

/-- The sample article with its publisher stored as a string, the form
POST /articles persists. -/
def strRefArticle : Article :=
  { sampleArticle with _id := "a9", publisher := .str "p1" }

/-- A second article by alice, newer than sampleArticle. -/
def newerArticle : Article :=
  { sampleArticle with _id := "b1", createdAt := 9 }

/-- The publisher both sample articles reference. -/
def samplePublisher : Publisher := ⟨"p1", "Daily", "logo", 0⟩

/-- A listing query filtering on the sample publisher, everything else
defaulted. -/
def pubFilterQuery : ArticlesQuery := ⟨none, none, none, some "p1", [], []⟩

/-! Helper lemmas about the collection operations. -/

theorem findFirst_updateFirst (p : α → Bool) (f : α → α)
    (hpf : ∀ x, p x = true → p (f x) = true) :
    ∀ xs : List α, findFirst p (updateFirst p f xs) = (findFirst p xs).map f
  | [] => rfl
  | x :: xs => by
      by_cases hp : p x = true
      · simp [updateFirst, findFirst, hp, hpf x hp]
      · simp [updateFirst, findFirst, hp,
          findFirst_updateFirst p f hpf xs]

theorem map_updateFirst (g : α → β) (p : α → Bool) (f : α → α)
    (h : ∀ x, g (f x) = g x) :
    ∀ xs : List α, (updateFirst p f xs).map g = xs.map g
  | [] => rfl
  | x :: xs => by
      by_cases hp : p x = true
      · simp [updateFirst, hp, h x]
      · simp [updateFirst, hp, map_updateFirst g p f h xs]

theorem map_updateAll (g : α → β) (p : α → Bool) (f : α → α)
    (h : ∀ x, g (f x) = g x) (xs : List α) :
    (updateAll p f xs).map g = xs.map g := by
  induction xs with
  | nil => rfl
  | cons x xs ih =>
      by_cases hp : p x = true <;> simp [updateAll, hp, h x] <;>
        simpa [updateAll] using ih

/-- The article-creation handler reads the users collection but never
writes it. -/
theorem postArticle_users_unchanged (db : DB) (email : String)
    (body : ArticleBody) (now : Time) (newId : String) :
    (postArticle db email body now newId).1.users = db.users := by
  unfold postArticle
  cases findUser db.users email with
  | none => rfl
  | some u =>
      dsimp only
      split
      · rfl
      · cases firstMissingField body <;> rfl

/-- C5 (confirmed).  Subscription Guard contract: with the looked-up user
in hand, a false hasSubscription makes the guard deny 403 without touching
the state; a set flag with an expiry strictly in the past makes the guard
deny 403 with the expired message, never reach the downstream handler, and
rewrite the stored user with the flag cleared and the expiry unset. -/
theorem C5_subscription_guard_contract (users : List User) (email : String)
    (now : Time) (u : User) (hu : findUser users email = some u) :
    (u.hasSubscription = false →
      verifySubscription users email now =
        ⟨users, .denied 403 "This content requires an active subscription"⟩) ∧
    (∀ e : Time, u.hasSubscription = true → u.subscriptionEnd = some e →
      e < now →
      (verifySubscription users email now).result =
        .denied 403 "Your subscription has expired" ∧
      (verifySubscription users email now).result ≠ .allowed ∧
      findUser (verifySubscription users email now).users email =
        some { u with hasSubscription := false, subscriptionEnd := none }) := by
  constructor
  · intro hfalse
    unfold verifySubscription
    rw [hu]
    simp [hfalse]
  · intro e htrue hend hpast
    have hguard : verifySubscription users email now =
        ⟨updateFirst (fun v => v.email == email) clearSubscription users,
         .denied 403 "Your subscription has expired"⟩ := by
      unfold verifySubscription
      rw [hu]
      simp [htrue, hend, hpast]
    refine ⟨by rw [hguard], by rw [hguard]; simp, ?_⟩
    rw [hguard]
    show findFirst (fun v => v.email == email)
        (updateFirst (fun v => v.email == email) clearSubscription users) = _
    rw [findFirst_updateFirst (fun v => v.email == email) clearSubscription
      (fun x hx => hx) users]
    rw [show findFirst (fun v => v.email == email) users = some u from hu]
    rfl

/-- C5 witness: a user flagged subscribed with expiry 0 queried at time
1000 is denied with the expired message. -/
theorem C5_witness :
    (verifySubscription [⟨"alice@x", "Alice", "ph", "user", true, some 0,
        none, none⟩] "alice@x" 1000).result =
      GuardResult.denied 403 "Your subscription has expired" :=
  (C5_subscription_guard_contract
    [⟨"alice@x", "Alice", "ph", "user", true, some 0, none, none⟩]
    "alice@x" 1000
    ⟨"alice@x", "Alice", "ph", "user", true, some 0, none, none⟩
    (by decide) |>.2 0 rfl rfl (by decide)).1

/-- C1 counterexample: a user flagged subscribed with expiry 0 posts a
first article at time 1000; the request completes (201) and the stored
record still shows hasSubscription true with the past expiry, so the
article-creation read path does not clear the flag as the claim states. -/
theorem C1_counterexample :
    (postArticle ⟨[⟨"alice@x", "Alice", "ph", "user", true, some 0, none,
          none⟩], [], [], []⟩ "alice@x"
        ⟨"T", "img", "p1", some [], "d", "c", "alice@x", "Alice", "ai"⟩
        1000 "n1").2 = .created201 ∧
    findUser (postArticle ⟨[⟨"alice@x", "Alice", "ph", "user", true, some 0,
          none, none⟩], [], [], []⟩ "alice@x"
        ⟨"T", "img", "p1", some [], "d", "c", "alice@x", "Alice", "ai"⟩
        1000 "n1").1.users "alice@x" =
      some ⟨"alice@x", "Alice", "ph", "user", true, some 0, none, none⟩ ∧
    (0 : Time) < 1000 := by
  refine ⟨by decide, by decide, by decide⟩

/-- C1 as amended (proved): of the three read paths, the Subscription Guard
and the subscription-status endpoint clear an expired-but-flagged user
before answering, while the article-creation handler only reads the
subscription state and leaves the users collection unchanged. -/
theorem C1_lazy_expiry_amended (users : List User) (email : String)
    (now : Time) (u : User) (e : Time) (hu : findUser users email = some u)
    (hflag : u.hasSubscription = true) (hend : u.subscriptionEnd = some e)
    (hpast : e < now) :
    findUser (verifySubscription users email now).users email =
      some { u with hasSubscription := false, subscriptionEnd := none } ∧
    findUser (subscriptionStatus users email email now).1 email =
      some { u with hasSubscription := false, subscriptionEnd := none } ∧
    (∀ (db : DB) (body : ArticleBody) (newId : String), db.users = users →
      (postArticle db email body now newId).1.users = users) := by
  refine ⟨?_, ?_, ?_⟩
  · exact (C5_subscription_guard_contract users email now u hu |>.2
      e hflag hend hpast).2.2
  · have hnotlt : decide (now < e) = false :=
      decide_eq_false (lt_asymm hpast)
    have hactive : (u.hasSubscription &&
        (match u.subscriptionEnd with
         | some e => decide (now < e)
         | none => false)) = false := by
      rw [hflag, hend]
      simp [hnotlt]
    unfold subscriptionStatus
    rw [hu]
    simp only [bne_self_eq_false, Bool.false_eq_true, if_false, hactive]
    simp only [Bool.not_false, hflag, Bool.and_self, if_true]
    show findFirst (fun v => v.email == email)
        (updateFirst (fun v => v.email == email) expireForStatus users) = _
    rw [findFirst_updateFirst (fun v => v.email == email) expireForStatus
      (fun x hx => hx) users]
    rw [show findFirst (fun v => v.email == email) users = some u from hu]
    rfl
  · intro db body newId hdb
    rw [← hdb]
    exact postArticle_users_unchanged db email body now newId

/-- C1 amended witness: at the concrete expired user, the guard path
leaves the record cleared. -/
theorem C1_amended_witness :
    findUser (verifySubscription [⟨"alice@x", "Alice", "ph", "user", true,
        some 0, none, none⟩] "alice@x" 1000).users "alice@x" =
      some ⟨"alice@x", "Alice", "ph", "user", false, none, none, none⟩ :=
  (C1_lazy_expiry_amended
    [⟨"alice@x", "Alice", "ph", "user", true, some 0, none, none⟩]
    "alice@x" 1000
    ⟨"alice@x", "Alice", "ph", "user", true, some 0, none, none⟩
    0 (by decide) rfl rfl (by decide)).1

/-- C10 (confirmed).  POST /users either refuses a duplicate email without
inserting, or appends exactly the sanitized document: whatever role,
subscription flag or expiry the request body carried, the stored record has
role user, hasSubscription false and subscriptionEnd null. -/
theorem C10_user_creation_sanitized (users : List User) (b : UserBody)
    (now : Time) :
    (postUser users b now).1 = users ∨
    (postUser users b now).1 = users ++
      [{ email := b.email, name := b.name, photo := b.photo, role := "user",
         hasSubscription := false, subscriptionEnd := none,
         created_at := some now, updated_at := none }] := by
  unfold postUser
  split
  · exact Or.inl rfl
  · exact Or.inr rfl

/-- C9 (confirmed).  The views aggregation of GET /user-stats keys its one
bucket by the ObjectId generated when the pipeline was built, never by a
calendar day, and consequently every one of the per-day buckets the
handler returns carries 0 views. -/
theorem C9_views_buckets_always_zero (articles : List Article)
    (email freshId : String) (days : List String) :
    ((viewsAggregation articles email freshId).all fun r =>
      match r.1 with
      | .oid _ => true
      | .dateStr _ => false) = true ∧
    ((filledViewsData articles email freshId days).all
      fun p => p.2 == 0) = true := by
  constructor
  · unfold viewsAggregation
    dsimp only
    split <;> simp
  · have hget : ∀ d : String,
        mapGet (viewsAggregation articles email freshId)
          (GroupKey.dateStr d) = none := by
      intro d
      unfold viewsAggregation mapGet
      dsimp only
      split
      · rfl
      · simp [findFirst]
    unfold filledViewsData
    simp only [List.all_eq_true, List.mem_map]
    rintro p ⟨d, _, rfl⟩
    rw [hget d]
    rfl

/-- C2 (confirmed).  PATCH /users/profile is all-or-nothing: the session is
ended on every exit path; a failure injected into the article-propagation
step (or anywhere else, answered 500) leaves the whole state, the user
record included, exactly as it was; a successful request (200) applies the
user update, the article fan-out and the comment fan-out together. -/
theorem C2_profile_update_atomic (db : DB) (email name photo : String)
    (now : Time) (articlesFail commentsFail : Bool) :
    (updateProfile db email name photo now articlesFail
      commentsFail).sessionEnded = true ∧
    ((updateProfile db email name photo now articlesFail
        commentsFail).status = 200 ∨
      (updateProfile db email name photo now articlesFail
        commentsFail).status = 500) ∧
    (articlesFail = true →
      (updateProfile db email name photo now articlesFail
        commentsFail).db = db) ∧
    ((updateProfile db email name photo now articlesFail
        commentsFail).status = 500 →
      (updateProfile db email name photo now articlesFail
        commentsFail).db = db) ∧
    ((updateProfile db email name photo now articlesFail
        commentsFail).status = 200 →
      (updateProfile db email name photo now articlesFail
        commentsFail).db =
        { users := updateFirst (fun u => u.email == email)
            (setNamePhoto name photo now) db.users
          articles := updateAll (fun a => a.authorEmail == email)
            (fun a => { a with authorName := name, authorImage := photo })
            db.articles
          comments := updateAll (fun c => c.userEmail == email)
            (fun c => { c with userName := name, userImage := photo })
            db.comments
          payments := db.payments }) := by
  unfold updateProfile
  by_cases hm : modifiedFirst (fun u => u.email == email)
      (setNamePhoto name photo now) db.users = 0
  · simp [hm]
  · cases articlesFail
    · cases commentsFail
      · simp [hm]
      · simp [hm]
    · simp [hm]

/-- C2 witness: with the article-propagation failure forced, the state is
unchanged and the session was ended. -/
theorem C2_witness :
    (updateProfile ⟨[⟨"alice@x", "Alice", "ph", "user", false, none, none,
        none⟩], [], [], []⟩ "alice@x" "N" "P" 5 true false).sessionEnded =
      true ∧
    (updateProfile ⟨[⟨"alice@x", "Alice", "ph", "user", false, none, none,
        none⟩], [], [], []⟩ "alice@x" "N" "P" 5 true false).db =
      ⟨[⟨"alice@x", "Alice", "ph", "user", false, none, none, none⟩],
        [], [], []⟩ := by
  have h := C2_profile_update_atomic
    ⟨[⟨"alice@x", "Alice", "ph", "user", false, none, none, none⟩],
      [], [], []⟩ "alice@x" "N" "P" 5 true false
  exact ⟨h.1, h.2.2.1 rfl⟩

/-- C3 (confirmed).  GET /payment/success on a session created for a plan:
when the provider reports paid, exactly one Payment record is appended
whose planId is the plan identity the creation handler stored in the
session metadata, and the user record is overwritten with hasSubscription
true and subscriptionEnd equal to the completion time plus the metadata
duration in minutes, regardless of any previous subscription window; on
any non-paid state nothing is written and the call fails. -/
theorem C3_payment_completion (db : DB) (plan : Plan) (s : CheckoutSession)
    (now : Time) (u : User)
    (hmeta : s.metadata = createSessionMetadata plan)
    (hu : findUser db.users s.customer_email = some u) :
    (s.payment_status = "paid" →
      (paymentSuccess db s now).2 = .ok200 ∧
      (paymentSuccess db s now).1.payments = db.payments ++
        [{ email := s.customer_email
           paymentId := s.payment_intent
           planId := plan.id
           planName := plan.name
           subscriptionTime := durationInMinutes plan
           amount := s.amount_total
           createdAt := now
           status := "success" }] ∧
      (paymentSuccess db s now).1.articles = db.articles ∧
      findUser (paymentSuccess db s now).1.users s.customer_email =
        some { u with
          hasSubscription := true
          subscriptionEnd := some (now + durationInMinutes plan * 60 * 1000) }) ∧
    (s.payment_status ≠ "paid" →
      paymentSuccess db s now = (db, .error500)) := by
  constructor
  · intro hpaid
    have hbranch : (s.payment_status == "paid") = true := by
      simp [hpaid]
    have hps : paymentSuccess db s now =
        ({ db with
            payments := db.payments ++
              [{ email := s.customer_email
                 paymentId := s.payment_intent
                 planId := plan.id
                 planName := plan.name
                 subscriptionTime := durationInMinutes plan
                 amount := s.amount_total
                 createdAt := now
                 status := "success" }]
            users := updateFirst (fun v => v.email == s.customer_email)
              (grantSubscription (durationInMinutes plan) now) db.users },
         .ok200) := by
      unfold paymentSuccess
      rw [hbranch, hmeta]
      simp [createSessionMetadata]
    rw [hps]
    refine ⟨rfl, rfl, rfl, ?_⟩
    show findFirst (fun v => v.email == s.customer_email)
        (updateFirst (fun v => v.email == s.customer_email)
          (grantSubscription (durationInMinutes plan) now)
          db.users) = _
    rw [findFirst_updateFirst (fun v => v.email == s.customer_email)
      (grantSubscription (durationInMinutes plan) now)
      (fun x hx => hx) db.users]
    rw [show findFirst (fun v => v.email == s.customer_email) db.users =
      some u from hu]
    rfl
  · intro hnot
    have hbranch : (s.payment_status == "paid") = false := by
      simpa using hnot
    unfold paymentSuccess
    rw [hbranch]
    simp

/-- C3 witness: a paid session with a 60-minute metadata duration appends
the matching Payment record and sets the subscription window to end 60
minutes after completion. -/
theorem C3_witness :
    (paymentSuccess
      ⟨[⟨"alice@x", "Alice", "ph", "user", false, none, none, none⟩],
        [], [], []⟩
      ⟨"sess1", "paid", "alice@x", "pi1", 500,
        createSessionMetadata
          ⟨"plan1", some "plan1", "Basic", 5, 60, "minute", "basic plan"⟩⟩
      1000).1.payments =
      [{ email := "alice@x", paymentId := "pi1", planId := some "plan1",
         planName := "Basic", subscriptionTime := 60, amount := 500,
         createdAt := 1000, status := "success" }] ∧
    findUser (paymentSuccess
      ⟨[⟨"alice@x", "Alice", "ph", "user", false, none, none, none⟩],
        [], [], []⟩
      ⟨"sess1", "paid", "alice@x", "pi1", 500,
        createSessionMetadata
          ⟨"plan1", some "plan1", "Basic", 5, 60, "minute", "basic plan"⟩⟩
      1000).1.users "alice@x" =
      some ⟨"alice@x", "Alice", "ph", "user", true, some 3601000, none,
        none⟩ := by
  have h := C3_payment_completion
    ⟨[⟨"alice@x", "Alice", "ph", "user", false, none, none, none⟩],
      [], [], []⟩
    ⟨"plan1", some "plan1", "Basic", 5, 60, "minute", "basic plan"⟩
    ⟨"sess1", "paid", "alice@x", "pi1", 500,
      createSessionMetadata
        ⟨"plan1", some "plan1", "Basic", 5, 60, "minute", "basic plan"⟩⟩
    1000
    ⟨"alice@x", "Alice", "ph", "user", false, none, none, none⟩
    rfl (by decide)
  have h1 := h.1 rfl
  exact ⟨by rw [h1.2.1]; decide, by rw [h1.2.2.2]; decide⟩

/-- C4 (confirmed).  The article authoring gate of POST /articles: a user
without a valid subscription who already authored at least one article is
denied 403 and nothing is inserted; the same user with no authored article
and all required fields present gets the article inserted (201); a user
with a valid subscription is inserted regardless of how many articles they
already authored. -/
theorem C4_authoring_gate (db : DB) (email : String) (body : ArticleBody)
    (now : Time) (newId : String) (u : User)
    (hu : findUser db.users email = some u) :
    (hasValidSubscription u now = false →
      1 ≤ countByAuthor db.articles email →
      postArticle db email body now newId = (db, .forbidden403)) ∧
    (hasValidSubscription u now = false →
      countByAuthor db.articles email = 0 →
      firstMissingField body = none →
      postArticle db email body now newId =
        ({ db with articles := db.articles ++ [mkArticle newId body now] },
         .created201)) ∧
    (hasValidSubscription u now = true →
      firstMissingField body = none →
      postArticle db email body now newId =
        ({ db with articles := db.articles ++ [mkArticle newId body now] },
         .created201)) := by
  refine ⟨?_, ?_, ?_⟩
  · intro hsub hcount
    unfold postArticle
    rw [hu]
    simp [hsub, hcount]
  · intro hsub hcount hfields
    unfold postArticle
    rw [hu]
    simp [hsub, hcount, hfields]
  · intro hsub hfields
    unfold postArticle
    rw [hu]
    simp [hsub, hfields]

/-- C4 witness: a non-subscribed user with one authored article is denied,
instantiated at a concrete state. -/
theorem C4_witness :
    postArticle
      ⟨[⟨"alice@x", "Alice", "ph", "user", false, none, none, none⟩],
        [⟨"a1", "T", "img", .str "p1", [], "d", "c", "alice@x", "Alice",
          "ai", 1, 1, "pending", 0, [], 0, false, none⟩], [], []⟩
      "alice@x" ⟨"T2", "img", "p1", some [], "d", "c", "alice@x", "Alice",
        "ai"⟩ 5 "a2" =
      (⟨[⟨"alice@x", "Alice", "ph", "user", false, none, none, none⟩],
        [⟨"a1", "T", "img", .str "p1", [], "d", "c", "alice@x", "Alice",
          "ai", 1, 1, "pending", 0, [], 0, false, none⟩], [], []⟩,
       .forbidden403) := by
  exact (C4_authoring_gate _ "alice@x" _ 5 "a2"
    ⟨"alice@x", "Alice", "ph", "user", false, none, none, none⟩
    (by decide)).1 (by decide) (by decide)

/-- C7 counterexample: the owner edit passes the request body verbatim into
the set stage, so the author of an article can change its authorEmail: at a
concrete state, alice patches her article with authorEmail bob@x and the
stored back-reference becomes bob@x while the request succeeds. -/
theorem C7_counterexample :
    (patchArticle
      [⟨"a1", "T", "img", .str "p1", [], "d", "c", "alice@x", "Alice",
        "ai", 1, 1, "pending", 0, [], 0, false, none⟩]
      "a1" "alice@x"
      ⟨none, none, none, none, none, none, some "bob@x", none, none⟩).2 =
      .ok200 ∧
    (patchArticle
      [⟨"a1", "T", "img", .str "p1", [], "d", "c", "alice@x", "Alice",
        "ai", 1, 1, "pending", 0, [], 0, false, none⟩]
      "a1" "alice@x"
      ⟨none, none, none, none, none, none, some "bob@x", none, none⟩).1.map
      Article.authorEmail = ["bob@x"] := by
  exact ⟨by decide, by decide⟩

/-- C7 as amended (proved): the admin status edit, the admin premium edit
and the profile fan-out never change any authorEmail, and the owner edit
preserves it exactly when the request body carries no authorEmail field;
ownership is not otherwise reassigned. -/
theorem C7_ownership_amended (articles : List Article) (id : String)
    (status : String) (declined : Option String) (now : Time) :
    (adminPatchArticle articles id status declined now).1.map
      Article.authorEmail = articles.map Article.authorEmail ∧
    (premiumPatchArticle articles id now).1.map Article.authorEmail =
      articles.map Article.authorEmail ∧
    (∀ (decoded : String) (b : UpdateBody), b.authorEmail = none →
      (patchArticle articles id decoded b).1.map Article.authorEmail =
        articles.map Article.authorEmail) ∧
    (∀ (db : DB) (email name photo : String) (af cf : Bool),
      db.articles = articles →
      (updateProfile db email name photo now af cf).db.articles.map
        Article.authorEmail = articles.map Article.authorEmail) := by
  refine ⟨?_, ?_, ?_, ?_⟩
  · unfold adminPatchArticle
    split
    · rfl
    · exact map_updateFirst Article.authorEmail (fun a => a._id == id)
        (adminSetStatus status declined now) (fun x => rfl) articles
  · unfold premiumPatchArticle
    dsimp only
    split
    · rfl
    · exact map_updateFirst Article.authorEmail (fun a => a._id == id)
        (fun a => { a with isPremium := true, updatedAt := now })
        (fun x => rfl) articles
  · intro decoded b hb
    unfold patchArticle
    cases hfind : findFirst (fun a => a._id == id) articles with
    | none => rfl
    | some a =>
        dsimp only
        split
        · rfl
        · split
          · rfl
          · exact map_updateFirst Article.authorEmail _ (applyUpdates b)
              (fun x => by simp [applyUpdates, hb]) articles
  · intro db email name photo af cf hdb
    subst hdb
    unfold updateProfile
    by_cases hm : modifiedFirst (fun u => u.email == email)
        (setNamePhoto name photo now) db.users = 0
    · simp [hm]
    · cases af
      · cases cf
        · simp only [hm, if_false, Bool.false_eq_true]
          exact map_updateAll Article.authorEmail
            (fun a => a.authorEmail == email)
            (fun a => { a with authorName := name, authorImage := photo })
            (fun x => rfl) db.articles
        · simp [hm]
      · simp [hm]

/-- C7 amended witness: at a concrete state, the admin status edit leaves
the authorEmail back-references untouched, and an owner edit without an
authorEmail field does too. -/
theorem C7_amended_witness :
    (adminPatchArticle [sampleArticle] "a8" "approved" none 9).1.map
      Article.authorEmail = ["alice@x"] ∧
    (patchArticle [sampleArticle] "a8" "alice@x"
      ⟨some "New title", none, none, none, none, none, none, none,
        none⟩).1.map Article.authorEmail = ["alice@x"] := by
  have h := C7_ownership_amended [sampleArticle] "a8" "approved" none 9
  constructor
  · rw [h.1]
    decide
  · rw [h.2.2.1 "alice@x"
      ⟨some "New title", none, none, none, none, none, none, none, none⟩
      rfl]
    decide

/-- C8 (confirmed).  POST /articles/:id/comments recomputes the parent
article average over every comment of that article, the new one included;
in the spec scenario (existing ratings 3 and 5, new rating 4) the stored
averageRating becomes 4. -/
theorem C8_average_rating_recomputed :
    (∀ (db : DB) (paramId : String) (b : CommentBody) (now : Time)
      (newId : String) (a : Article),
      b.articleId = paramId →
      findFirst (fun x => x._id == paramId) db.articles = some a →
      findFirst (fun x => x._id == paramId)
          (addComment db paramId b now newId).articles =
        some { a with averageRating :=
          (((db.comments ++ [mkComment newId b now]).filter
            (fun c => c.articleId == paramId)).map Comment.rating).sum /
          (((db.comments ++ [mkComment newId b now]).filter
            (fun c => c.articleId == paramId)).length : ℚ) }) ∧
    (addComment sampleDB "a8" sampleCommentBody 9 "c9").articles.map
      Article.averageRating = [4] := by
  constructor
  · intro db paramId b now newId a hb hfind
    unfold addComment
    dsimp only
    rw [findFirst_updateFirst (fun x => x._id == paramId)
      (fun x => { x with averageRating :=
        (((db.comments ++ [mkComment newId b now]).filter
          (fun c => c.articleId == paramId)).map Comment.rating).sum /
        (((db.comments ++ [mkComment newId b now]).filter
          (fun c => c.articleId == paramId)).length : ℚ) })
      (fun x hx => hx) db.articles]
    rw [hfind]
    rfl
  · simp [addComment, sampleDB, sampleComments, sampleCommentBody,
      sampleArticle, mkComment, updateFirst, List.filter]
    norm_num

/-- C8 witness: the general recomputation applied at the spec scenario
yields the article with averageRating 4. -/
theorem C8_witness :
    findFirst (fun x => x._id == "a8")
        (addComment sampleDB "a8" sampleCommentBody 9 "c9").articles =
      some { sampleArticle with averageRating := 4 } := by
  have h := C8_average_rating_recomputed.1 sampleDB "a8" sampleCommentBody
    9 "c9" sampleArticle rfl (by decide)
  rw [h]
  simp [sampleDB, sampleComments, sampleCommentBody, mkComment,
    List.filter]
  norm_num

/-! Lemmas for the listing pipeline. -/

theorem map_insertDescBy (k : α → Int) (f : β → α) (x : β) (l : List β) :
    (insertDescBy (fun r => k (f r)) x l).map f =
      insertDescBy k (f x) (l.map f) := by
  induction l with
  | nil => rfl
  | cons y ys ih =>
      by_cases h : k (f y) < k (f x) <;> simp [insertDescBy, h, ih]

theorem map_sortDescBy (k : α → Int) (f : β → α) (l : List β) :
    (sortDescBy (fun r => k (f r)) l).map f = sortDescBy k (l.map f) := by
  induction l with
  | nil => rfl
  | cons y ys ih => simp [sortDescBy, map_insertDescBy, ih]

theorem lookupUnwind_map_fst (pubs : List Publisher) :
    ∀ arts : List Article,
      (∀ a ∈ arts,
        (pubs.filter fun p => PubRef.oid p._id == a.publisher).length = 1) →
      (lookupUnwind pubs arts).map Prod.fst = arts
  | [], _ => rfl
  | a :: arts, h => by
      obtain ⟨p, hp⟩ := List.length_eq_one.mp (h a (by simp))
      have ih := lookupUnwind_map_fst pubs arts
        (fun x hx => h x (List.mem_cons_of_mem a hx))
      simp [lookupUnwind, hp, ih]

theorem map_normalize_id :
    ∀ articles : List Article,
      (∀ a ∈ articles, normalizePublisher a = a) →
      articles.map normalizePublisher = articles
  | [], _ => rfl
  | a :: arts, h => by
      rw [List.map_cons, h a (by simp),
        map_normalize_id arts (fun x hx => h x (List.mem_cons_of_mem a hx))]

/-- C6 counterexample: with one approved article whose publisher reference
is stored as a string (as POST /articles stores it) and a query filtering
on that publisher, the pipeline normalizes the reference and returns the
article, while countDocuments, run on the raw documents, reports total 0:
the returned first page holds more items than the reported size of the
filtered set, so the claimed equality between the total and the filtered
set backing the page fails. -/
theorem C6_counterexample :
    (getArticles [strRefArticle] [samplePublisher] pubFilterQuery).total =
      0 ∧
    (getArticles [strRefArticle] [samplePublisher] pubFilterQuery).data.map
      (fun r => r.1._id) = ["a9"] ∧
    (getArticles [strRefArticle] [samplePublisher]
        pubFilterQuery).totalPages = 0 := by
  exact ⟨by decide, by decide, by decide⟩

/-- C6 as amended (proved): page and limit default to 1 and 10; the
returned page is items (page-1)*limit+1 through page*limit of the
match-filtered set sorted newest-first; the reported total is the count of
the raw stored documents matching the same filter, without the
string-to-ObjectId normalization and without the publisher join — it
therefore agrees with the set backing the returned page whenever every
stored article already carries an ObjectId reference resolving to exactly
one publisher (the hypotheses below); totalPages is the ceiling of total
over limit. -/
theorem C6_listing_amended (articles : List Article) (pubs : List Publisher)
    (q : ArticlesQuery)
    (hoid : ∀ a ∈ articles, normalizePublisher a = a)
    (hjoin : ∀ a ∈ articles, matchesQuery q a = true →
      (pubs.filter fun p => PubRef.oid p._id == a.publisher).length = 1) :
    (q.page = none → (getArticles articles pubs q).page = 1) ∧
    (q.limit = none → (getArticles articles pubs q).limit = 10) ∧
    (getArticles articles pubs q).total =
      (articles.filter (matchesQuery q)).length ∧
    (getArticles articles pubs q).data.map Prod.fst =
      ((sortDescBy (fun a => a.createdAt)
          (articles.filter (matchesQuery q))).drop
        ((pageOf q - 1) * limitOf q)).take (limitOf q) ∧
    (getArticles articles pubs q).totalPages =
      (articles.filter (matchesQuery q)).length ⌈/⌉ limitOf q := by
  have hfilter : (articles.map normalizePublisher).filter (matchesQuery q) =
      articles.filter (matchesQuery q) := by
    rw [map_normalize_id articles hoid]
  refine ⟨?_, ?_, rfl, ?_, rfl⟩
  · intro hp
    show pageOf q = 1
    rw [pageOf, hp]
  · intro hl
    show limitOf q = 10
    rw [limitOf, hl]
  · show (((sortDescBy (fun r => r.1.createdAt)
        (lookupUnwind pubs
          ((articles.map normalizePublisher).filter (matchesQuery q)))).drop
        ((pageOf q - 1) * limitOf q)).take (limitOf q)).map Prod.fst = _
    rw [hfilter, List.map_take, List.map_drop,
      map_sortDescBy Article.createdAt Prod.fst,
      lookupUnwind_map_fst pubs (articles.filter (matchesQuery q))
        (fun a ha => hjoin a (List.mem_of_mem_filter ha)
          (List.of_mem_filter ha))]

/-- C6 amended witness: two ObjectId-referenced articles, page 2 with
limit 1, return exactly the second-newest article, total 2 and 2 pages. -/
theorem C6_witness :
    (getArticles [sampleArticle, newerArticle] [samplePublisher]
      ⟨some 2, some 1, none, none, [], []⟩).data.map Prod.fst =
      [sampleArticle] ∧
    (getArticles [sampleArticle, newerArticle] [samplePublisher]
      ⟨some 2, some 1, none, none, [], []⟩).total = 2 ∧
    (getArticles [sampleArticle, newerArticle] [samplePublisher]
      ⟨some 2, some 1, none, none, [], []⟩).totalPages = 2 := by
  have h := C6_listing_amended [sampleArticle, newerArticle]
    [samplePublisher] ⟨some 2, some 1, none, none, [], []⟩
    (by decide) (by decide)
  refine ⟨?_, ?_, ?_⟩
  · rw [h.2.2.2.1]
    decide
  · rw [h.2.2.1]
    decide
  · rw [h.2.2.2.2]
    decide

end Herald
